import Mathlib

/-!
Verification of the error-translation and platform-descriptor layer of a
Rust wrapper around a native regular-expression engine.

The embedding follows the source files:
  * `hyperscan/src/errors.rs` — the `HsError` taxonomy, the
    `From<ffi::hs_error_t>` conversion, and the `AsResult` adapter
    (`ok`, `map`, `and_then`);
  * `hyperscan/src/compile/platform.rs` — `Tune`, `CpuFeatures`,
    `hs_platform_info_t`, `Platform::new` and `Platform::host`.

The native status codes and tuning-family constants live in the generated
C bindings, which are not part of the repository sources; their values are
taken from the native engine's public header as the spec describes them.
-/

/-- Native status-code type `ffi::hs_error_t` (a C `int`). -/
abbrev hs_error_t := Int

/-- Modelled from the spec: the native success code `HS_SUCCESS` from the
engine's C header (the generated bindings are outside the repository).
The spec fixes success at code 0. -/
def HS_SUCCESS : hs_error_t := 0

/-- Modelled from the spec: native code for an invalid parameter. -/
def HS_INVALID : hs_error_t := -1

/-- Modelled from the spec: native code for a failed memory allocation. -/
def HS_NOMEM : hs_error_t := -2

/-- Modelled from the spec: native code for callback-requested termination. -/
def HS_SCAN_TERMINATED : hs_error_t := -3

/-- Modelled from the spec: native code for a pattern-compiler failure. -/
def HS_COMPILER_ERROR : hs_error_t := -4

/-- Modelled from the spec: native code for a database version mismatch. -/
def HS_DB_VERSION_ERROR : hs_error_t := -5

/-- Modelled from the spec: native code for a database platform mismatch. -/
def HS_DB_PLATFORM_ERROR : hs_error_t := -6

/-- Modelled from the spec: native code for a database mode mismatch. -/
def HS_DB_MODE_ERROR : hs_error_t := -7

/-- Modelled from the spec: native code for a misaligned parameter. -/
def HS_BAD_ALIGN : hs_error_t := -8

/-- Modelled from the spec: native code for a misbehaving allocator. -/
def HS_BAD_ALLOC : hs_error_t := -9

/-- Modelled from the spec: native code for scratch space already in use. -/
def HS_SCRATCH_IN_USE : hs_error_t := -10

/-- Modelled from the spec: native code for an unsupported CPU architecture. -/
def HS_ARCH_ERROR : hs_error_t := -11

/-- Modelled from the spec: native code for a too-small buffer. -/
def HS_INSUFFICIENT_SPACE : hs_error_t := -12

/-- Modelled from the spec: native code for an unexpected internal error. -/
def HS_UNKNOWN_ERROR : hs_error_t := -13

/-- Modelled from the spec: the compile-error detail object
(`CompileErrorDetail` in the spec, `compile::Error` in the code) pairs a
diagnostic message with the index of the failing pattern.  Its defining
module is not among the provided sources; only the shape the spec gives
it is needed here. -/
structure CompileErrorDetail where
  message : String
  expression : Int
deriving DecidableEq, Repr

/-- The `HsError` enumeration from `errors.rs`: one variant per documented
native status code, a `CompileError` variant carrying the compile detail,
and the catch-all `Code` variant holding an unrecognized raw code. -/
inductive HsError where
  | Invalid
  | NoMem
  | ScanTerminated
  | CompileError (detail : CompileErrorDetail)
  | DbVersionError
  | DbPlatformError
  | DbModeError
  | BadAlign
  | BadAlloc
  | ScratchInUse
  | ArchError
  | InsufficientSpace
  | UnknownError
  | Code (err : hs_error_t)
deriving DecidableEq, Repr

/-- The `impl From<ffi::hs_error_t> for HsError` conversion from
`errors.rs`, arm by arm.  The source's `match` compares the scrutinee
against the named constants in order; the `HS_COMPILER_ERROR` arm is
commented out in the source, so that code falls through to the wildcard
`Code` arm like any unlisted value. -/
def HsError.fromCode (err : hs_error_t) : HsError :=
  if err = HS_INVALID then .Invalid
  else if err = HS_NOMEM then .NoMem
  else if err = HS_SCAN_TERMINATED then .ScanTerminated
  else if err = HS_DB_VERSION_ERROR then .DbVersionError
  else if err = HS_DB_PLATFORM_ERROR then .DbPlatformError
  else if err = HS_DB_MODE_ERROR then .DbModeError
  else if err = HS_BAD_ALIGN then .BadAlign
  else if err = HS_BAD_ALLOC then .BadAlloc
  else if err = HS_SCRATCH_IN_USE then .ScratchInUse
  else if err = HS_ARCH_ERROR then .ArchError
  else if err = HS_INSUFFICIENT_SPACE then .InsufficientSpace
  else if err = HS_UNKNOWN_ERROR then .UnknownError
  else .Code err

/-- `AsResult::ok` for `ffi::hs_error_t` from `errors.rs`: success code
yields `Ok(())`, anything else is converted through `From` and wrapped
as the error.  Rust's `Result` is embedded as `Except`. -/
def hs_error_t.ok (s : hs_error_t) : Except HsError Unit :=
  if s = HS_SUCCESS then Except.ok () else Except.error (HsError.fromCode s)

/-- The default `AsResult::map` combinator from `errors.rs`:
`self.ok().map(op)`. -/
def hs_error_t.map {α : Type} (s : hs_error_t) (op : Unit → α) : Except HsError α :=
  (hs_error_t.ok s).map op

/-- The default `AsResult::and_then` combinator from `errors.rs`:
`self.ok().and_then(op)` (Rust `Result::and_then` is `Except.bind`). -/
def hs_error_t.and_then {α : Type} (s : hs_error_t) (op : Unit → Except HsError α) :
    Except HsError α :=
  (hs_error_t.ok s).bind op

/-- The set of status codes given a dedicated arm in the `From` match of
`errors.rs` (the compiler-error code is absent: its arm is commented
out). -/
def recognizedCodes : List hs_error_t :=
  [HS_INVALID, HS_NOMEM, HS_SCAN_TERMINATED, HS_DB_VERSION_ERROR,
   HS_DB_PLATFORM_ERROR, HS_DB_MODE_ERROR, HS_BAD_ALIGN, HS_BAD_ALLOC,
   HS_SCRATCH_IN_USE, HS_ARCH_ERROR, HS_INSUFFICIENT_SPACE, HS_UNKNOWN_ERROR]

/-- Modelled from the spec: tuning-family constant for the generic target
(the generated bindings holding `HS_TUNE_FAMILY_*` are outside the
repository; values follow the native header). -/
def HS_TUNE_FAMILY_GENERIC : Nat := 0

/-- Modelled from the spec: tuning-family constant for Sandy Bridge. -/
def HS_TUNE_FAMILY_SNB : Nat := 1

/-- Modelled from the spec: tuning-family constant for Ivy Bridge. -/
def HS_TUNE_FAMILY_IVB : Nat := 2

/-- Modelled from the spec: tuning-family constant for Haswell. -/
def HS_TUNE_FAMILY_HSW : Nat := 3

/-- Modelled from the spec: tuning-family constant for Silvermont. -/
def HS_TUNE_FAMILY_SLM : Nat := 4

/-- Modelled from the spec: tuning-family constant for Broadwell. -/
def HS_TUNE_FAMILY_BDW : Nat := 5

/-- Modelled from the spec: tuning-family constant for Skylake. -/
def HS_TUNE_FAMILY_SKL : Nat := 6

/-- Modelled from the spec: tuning-family constant for Skylake Server. -/
def HS_TUNE_FAMILY_SKX : Nat := 7

/-- Modelled from the spec: tuning-family constant for Goldmont. -/
def HS_TUNE_FAMILY_GLM : Nat := 8

/-- Modelled from the spec: CPU-feature bit for AVX2
(`HS_CPU_FEATURES_AVX2` in the native header). -/
def HS_CPU_FEATURES_AVX2 : Nat := 4

/-- Modelled from the spec: CPU-feature bit for AVX512
(`HS_CPU_FEATURES_AVX512` in the native header). -/
def HS_CPU_FEATURES_AVX512 : Nat := 8

/-- The `Tune` enumeration from `platform.rs`: one variant per supported
microarchitecture family, with the discriminant fixed to the matching
native constant by the `#[repr(u32)]` declaration. -/
inductive Tune where
  | Generic
  | SandyBridge
  | IvyBridge
  | Haswell
  | Silvermont
  | Broadwell
  | Skylake
  | SkylakeServer
  | Goldmont
deriving DecidableEq, Repr

/-- The `tune as u32` cast used by `Platform::new`: the discriminant of
the variant, which `platform.rs` pins to the native tuning constants. -/
def Tune.toU32 : Tune → Nat
  | .Generic => HS_TUNE_FAMILY_GENERIC
  | .SandyBridge => HS_TUNE_FAMILY_SNB
  | .IvyBridge => HS_TUNE_FAMILY_IVB
  | .Haswell => HS_TUNE_FAMILY_HSW
  | .Silvermont => HS_TUNE_FAMILY_SLM
  | .Broadwell => HS_TUNE_FAMILY_BDW
  | .Skylake => HS_TUNE_FAMILY_SKL
  | .SkylakeServer => HS_TUNE_FAMILY_SKX
  | .Goldmont => HS_TUNE_FAMILY_GLM

/-- The `CpuFeatures` bitflags from `platform.rs`: a `u64` bitset.
`bits` is the raw value handed through to the native ABI field. -/
structure CpuFeatures where
  bits : Nat
deriving DecidableEq, Repr

/-- The named `AVX2` flag of `CpuFeatures`. -/
def CpuFeatures.AVX2 : CpuFeatures := ⟨HS_CPU_FEATURES_AVX2⟩

/-- The named `AVX512` flag of `CpuFeatures`. -/
def CpuFeatures.AVX512 : CpuFeatures := ⟨HS_CPU_FEATURES_AVX512⟩

/-- Bitwise-OR combination of feature sets, as `bitflags` provides. -/
def CpuFeatures.union (a b : CpuFeatures) : CpuFeatures := ⟨a.bits ||| b.bits⟩

/-- The native `hs_platform_info_t` structure the wrapper fills in:
tuning family, CPU-feature bits, and two reserved fields. -/
structure hs_platform_info_t where
  tune : Nat
  cpu_features : Nat
  reserved1 : Nat
  reserved2 : Nat
deriving DecidableEq, Repr

/-- The owned `Platform` handle from `platform.rs`: it owns exactly the
boxed `hs_platform_info_t` the constructors allocate. -/
structure Platform where
  info : hs_platform_info_t
deriving DecidableEq, Repr

/-- `Platform::new` from `platform.rs`: builds the platform-info structure
field by field — `tune: tune as u32`, `cpu_features: cpu_features.bits()`,
both reserved fields zero — and takes ownership of it. -/
def Platform.new (tune : Tune) (cpu_features : CpuFeatures) : Platform :=
  { info := { tune := tune.toU32
              cpu_features := cpu_features.bits
              reserved1 := 0
              reserved2 := 0 } }

/-- Modelled from the spec: the outcome of the native
`hs_populate_platform` call, which is outside the repository — a status
code, and the platform information the call writes into the supplied
buffer (meaningful when the status is success). -/
structure PopulatePlatformOutcome where
  status : hs_error_t
  info : hs_platform_info_t
deriving DecidableEq, Repr

/-- `Platform::host` from `platform.rs`, parameterized by the native
call's outcome: `hs_populate_platform(ptr).map(|_| Platform::from_ptr(...))`
— the status is routed through the adapter's `map`, so the owned handle is
built from the populated buffer only on the success branch. -/
def Platform.host (native : PopulatePlatformOutcome) : Except HsError Platform :=
  hs_error_t.map native.status (fun _ => { info := native.info })

/-- C1: for every native status code, the adapter's `ok` returns `Ok(())`
exactly when the code is `HS_SUCCESS` (0); every other code is turned into
the error produced by the `From` conversion. -/
theorem hs_error_ok_iff_success (s : hs_error_t) :
    (hs_error_t.ok s = Except.ok () ↔ s = HS_SUCCESS) ∧
    (s ≠ HS_SUCCESS → hs_error_t.ok s = Except.error (HsError.fromCode s)) := by
  refine ⟨⟨fun h => ?_, fun h => by simp [hs_error_t.ok, h]⟩, fun h => ?_⟩
  · by_contra hne
    simp [hs_error_t.ok, hne] at h
  · simp [hs_error_t.ok, h]

/-- C1 witness: at the concrete non-success code `HS_NOMEM` the adapter
returns the converted error. -/
theorem hs_error_ok_iff_success_witness :
    hs_error_t.ok HS_NOMEM = Except.error (HsError.fromCode HS_NOMEM) :=
  (hs_error_ok_iff_success HS_NOMEM).2 (by decide)

/-- C2: every status code in the recognized set is translated to exactly
its documented `HsError` variant. -/
theorem hs_error_recognized_codes_mapping :
    HsError.fromCode HS_INVALID = HsError.Invalid ∧
    HsError.fromCode HS_NOMEM = HsError.NoMem ∧
    HsError.fromCode HS_SCAN_TERMINATED = HsError.ScanTerminated ∧
    HsError.fromCode HS_DB_VERSION_ERROR = HsError.DbVersionError ∧
    HsError.fromCode HS_DB_PLATFORM_ERROR = HsError.DbPlatformError ∧
    HsError.fromCode HS_DB_MODE_ERROR = HsError.DbModeError ∧
    HsError.fromCode HS_BAD_ALIGN = HsError.BadAlign ∧
    HsError.fromCode HS_BAD_ALLOC = HsError.BadAlloc ∧
    HsError.fromCode HS_SCRATCH_IN_USE = HsError.ScratchInUse ∧
    HsError.fromCode HS_ARCH_ERROR = HsError.ArchError ∧
    HsError.fromCode HS_INSUFFICIENT_SPACE = HsError.InsufficientSpace ∧
    HsError.fromCode HS_UNKNOWN_ERROR = HsError.UnknownError := by
  decide

/-- C3 counterexample: translating the designated compiler-error code
through the adapter yields the catch-all `Code` variant carrying the raw
code, contradicting the claim that the catch-all is never produced for
that code — the `HS_COMPILER_ERROR` arm of the `From` match is commented
out in `errors.rs`. -/
theorem compiler_error_yields_catchall_counterexample :
    hs_error_t.ok HS_COMPILER_ERROR = Except.error (HsError.Code HS_COMPILER_ERROR) :=
  rfl

/-- C3 amended: the status-code translation does not special-case the
compiler-error code; `From` maps `HS_COMPILER_ERROR` to the wildcard
`Code` variant with the raw value preserved, and the adapter surfaces
exactly that conversion — `CompileError` detail extraction is not
performed by this translation. -/
theorem compiler_error_yields_catchall :
    HsError.fromCode HS_COMPILER_ERROR = HsError.Code HS_COMPILER_ERROR ∧
    hs_error_t.ok HS_COMPILER_ERROR = Except.error (HsError.fromCode HS_COMPILER_ERROR) :=
  ⟨rfl, rfl⟩

/-- C4: any status code outside the recognized set and different from
success is translated to `Code` with the raw value preserved unchanged;
the translation is a total function over all integer codes, so no code
can make it panic. -/
theorem hs_error_unrecognized_to_code (s : hs_error_t)
    (hns : s ∉ recognizedCodes) (h0 : s ≠ HS_SUCCESS) :
    hs_error_t.ok s = Except.error (HsError.Code s) := by
  simp only [recognizedCodes, List.mem_cons, List.not_mem_nil, or_false, not_or] at hns
  obtain ⟨h1, h2, h3, h4, h5, h6, h7, h8, h9, h10, h11, h12⟩ := hns
  simp [hs_error_t.ok, HsError.fromCode, h0, h1, h2, h3, h4, h5, h6, h7, h8, h9, h10, h11, h12]

/-- C4 witness: the concrete unrecognized code 42 degrades to `Code 42`. -/
theorem hs_error_unrecognized_to_code_witness :
    hs_error_t.ok 42 = Except.error (HsError.Code 42) :=
  hs_error_unrecognized_to_code 42 (by decide) (by decide)

/-- C5: `Platform::new` stores exactly the supplied values — the
platform-info `tune` field equals the numeric value of the `Tune` variant
and `cpu_features` equals the raw bit pattern of the supplied
`CpuFeatures`, so reading them back round-trips. -/
theorem platform_new_roundtrip (tune : Tune) (cpu_features : CpuFeatures) :
    (Platform.new tune cpu_features).info.tune = tune.toU32 ∧
    (Platform.new tune cpu_features).info.cpu_features = cpu_features.bits :=
  ⟨rfl, rfl⟩

/-- C7: `Platform::host` is atomic in the native populate outcome — a
non-success status propagates the translated error and no handle is
built, while a success status yields the owned descriptor wrapping the
populated platform information. -/
theorem platform_host_atomic (native : PopulatePlatformOutcome) :
    (native.status ≠ HS_SUCCESS →
      Platform.host native = Except.error (HsError.fromCode native.status)) ∧
    (native.status = HS_SUCCESS →
      Platform.host native = Except.ok { info := native.info }) := by
  refine ⟨fun h => ?_, fun h => ?_⟩
  · simp [Platform.host, hs_error_t.map, hs_error_t.ok, h, Except.map]
  · simp [Platform.host, hs_error_t.map, hs_error_t.ok, h, Except.map]

/-- C7 witness: at a concrete failed populate outcome (status
`HS_ARCH_ERROR`) the constructor returns the translated error. -/
theorem platform_host_atomic_witness :
    Platform.host ⟨HS_ARCH_ERROR, ⟨0, 0, 0, 0⟩⟩ =
      Except.error (HsError.fromCode HS_ARCH_ERROR) :=
  (platform_host_atomic ⟨HS_ARCH_ERROR, ⟨0, 0, 0, 0⟩⟩).1 (by decide)

/-- C8: applying the `From` conversion directly to the success code 0
does not special-case success and yields the catch-all `Code 0`; only the
adapter's `ok` check maps 0 to `Ok(())`. -/
theorem hs_error_from_success_is_code_zero :
    HsError.fromCode HS_SUCCESS = HsError.Code 0 ∧
    hs_error_t.ok HS_SUCCESS = Except.ok () :=
  ⟨rfl, rfl⟩

/-- C9: `Platform::new` sets both reserved fields of the platform-info
structure to 0 independently of the arguments. -/
theorem platform_new_reserved_zero (tune : Tune) (cpu_features : CpuFeatures) :
    (Platform.new tune cpu_features).info.reserved1 = 0 ∧
    (Platform.new tune cpu_features).info.reserved2 = 0 :=
  ⟨rfl, rfl⟩

/-- C10: the derived adapter combinators satisfy `s.map f = s.ok().map f`
and `s.and_then g = s.ok().and_then g`; on every non-success code both
return exactly the error produced by `ok`, for every `f` and `g` alike —
the supplied function cannot influence the result, so it is never
invoked and an error status cannot become success through a combinator. -/
theorem as_result_combinators (s : hs_error_t) :
    (∀ (α : Type) (f : Unit → α), hs_error_t.map s f = (hs_error_t.ok s).map f) ∧
    (∀ (α : Type) (g : Unit → Except HsError α),
      hs_error_t.and_then s g = (hs_error_t.ok s).bind g) ∧
    (s ≠ HS_SUCCESS → ∀ (α : Type) (f : Unit → α) (g : Unit → Except HsError α),
      hs_error_t.map s f = Except.error (HsError.fromCode s) ∧
      hs_error_t.and_then s g = Except.error (HsError.fromCode s)) := by
  refine ⟨fun α f => rfl, fun α g => rfl, fun h α f g => ⟨?_, ?_⟩⟩
  · simp [hs_error_t.map, hs_error_t.ok, h, Except.map]
  · simp [hs_error_t.and_then, hs_error_t.ok, h, Except.bind]

/-- C10 witness: on the concrete non-success code `HS_SCAN_TERMINATED`
both combinators return the error produced by `ok`, for concrete
functions. -/
theorem as_result_combinators_witness :
    hs_error_t.map HS_SCAN_TERMINATED (fun _ => (1 : Nat)) =
      Except.error (HsError.fromCode HS_SCAN_TERMINATED) ∧
    hs_error_t.and_then HS_SCAN_TERMINATED (fun _ => Except.ok (1 : Nat)) =
      Except.error (HsError.fromCode HS_SCAN_TERMINATED) :=
  (as_result_combinators HS_SCAN_TERMINATED).2.2 (by decide) Nat
    (fun _ => 1) (fun _ => Except.ok 1)
